import Mathlib

/-!
Shallow embedding of the edit-specification compiler and timeline
materializer of `video-editing-mcp`, covering:

* `timecode_to_frames` and `create_rational_time`
  (src/video_editor_mcp/generate_opentimeline.py, lines 20-39);
* `create_otio_timeline` (same file, lines 42-76), with the network
  catalog abstracted as a lookup function and downloads modelled by the
  local path they produce;
* the inline resolution validation, cut normalization and project
  get-or-create logic of `handle_call_tool` in
  src/video_editor_mcp/server.py (lines 744-803 for
  `generate-edit-from-videos`, lines 863-929 for
  `generate-edit-from-single-video`).

Numeric strings are parsed to exact rationals (`ℚ`) in place of Python
floats; Python `int(...)` truncation toward zero is `pyInt`.  The modelled
fragment of Python `float(...)` covers an optional sign followed by a
decimal digit string with an optional fractional part, which is the
grammar of the timecode components involved; Python additionally accepts
exponents, `inf`/`nan`, surrounding whitespace and digit-group
underscores, none of which matter to the properties below.
-/

deriving instance DecidableEq for Except

/-- Python `s.split(sep)` for a one-character separator, over `List Char`:
splits at every occurrence and keeps empty fragments, so the result is
always nonempty. -/
def splitOnChar (sep : Char) : List Char → List (List Char)
  | [] => [[]]
  | c :: rest =>
    let r := splitOnChar sep rest
    if c = sep then [] :: r
    else
      match r with
      | [] => [[c]]
      | g :: gs => (c :: g) :: gs

/-- Numeric value of a decimal digit string (most significant first). -/
def digitsVal (s : List Char) : ℕ :=
  s.foldl (fun a c => 10 * a + (c.toNat - 48)) 0

/-- All characters are decimal digits. -/
def allDigits (s : List Char) : Bool :=
  s.all (fun c => c.isDigit)

/-- Unsigned decimal fragment of Python `float(...)`: digits with an
optional point, at least one digit overall (`"5."` and `".5"` parse,
`"."` and `""` do not). -/
def pyFloatCore? (s : List Char) : Option ℚ :=
  match splitOnChar '.' s with
  | [a] =>
    if allDigits a ∧ a ≠ [] then some (digitsVal a) else none
  | [a, b] =>
    if allDigits a ∧ allDigits b ∧ (a ≠ [] ∨ b ≠ []) then
      some ((digitsVal a : ℚ) + Rat.divInt (digitsVal b) (10 ^ b.length))
    else none
  | _ => none

/-- The fragment of Python `float(string)` relevant here: optional sign,
then digits with an optional fractional part.  `none` models the
`ValueError` that `float` raises on anything else. -/
def pyFloat? (s : List Char) : Option ℚ :=
  match s with
  | '-' :: rest => (pyFloatCore? rest).map (fun q => -q)
  | '+' :: rest => pyFloatCore? rest
  | _ => pyFloatCore? s

/-- Python `int(x)` on a float value: truncation toward zero, computed on
the reduced fraction. -/
def pyInt (q : ℚ) : Int :=
  q.num.tdiv q.den

/-- The parsing phase of `timecode_to_frames` (generate_opentimeline.py
lines 25-28): `parts = timecode.split(":")` followed by
`float(parts[0])`, `float(parts[1])`, `float(parts[2])`.  `none` models
the `IndexError` of a missing component or the `ValueError` of an
unparseable one; components beyond the third are never read. -/
def timecodeParts? (timecode : String) : Option (ℚ × ℚ × ℚ) :=
  let parts := splitOnChar ':' timecode.data
  match (parts.get? 0).bind pyFloat?, (parts.get? 1).bind pyFloat?,
      (parts.get? 2).bind pyFloat? with
  | some hours, some minutes, some seconds => some (hours, minutes, seconds)
  | _, _, _ => none

/-- `timecode_to_frames(timecode, fps)` from generate_opentimeline.py
(lines 20-33): parse the three components, truncate
`(h*3600 + m*60 + s) * fps` to an integer frame count, and turn any
parse failure into the `"Invalid timecode format"` `ValueError`. -/
def timecode_to_frames (timecode : String) (fps : ℚ) : Except String Int :=
  match timecodeParts? timecode with
  | some (hours, minutes, seconds) =>
    Except.ok (pyInt ((hours * 3600 + minutes * 60 + seconds) * fps))
  | none => Except.error ("Invalid timecode format: " ++ timecode)

/-- The fragment of Python `int(string)` used by the resolution check:
optional sign, then a nonempty decimal digit string.  `none` models the
`ValueError` raised on anything else. -/
def pyParseInt? (s : List Char) : Option Int :=
  match s with
  | '-' :: rest =>
    if allDigits rest ∧ rest ≠ [] then some (-(digitsVal rest : Int)) else none
  | '+' :: rest =>
    if allDigits rest ∧ rest ≠ [] then some ((digitsVal rest : Int)) else none
  | _ => if allDigits s ∧ s ≠ [] then some ((digitsVal s : Int)) else none

/-- Error text raised by both resolution checks in server.py. -/
def resolutionError : String :=
  "Resolution must be in the format widthxheight where width and height are integers"

/-- Resolution handling of `generate-edit-from-videos` (server.py lines
748-763): default `"1080x1920"` when falsy, then the `"1080p"`/`"720p"`
preset substitutions, then `w, h = resolution.split("x")` (exactly two
parts or `ValueError`) followed by `f"{int(w)}x{int(w)}"` — only the
width is ever parsed; the height part and positivity are unchecked.  On
success the handler keeps the (substituted) resolution string. -/
def normalizeResolutionVideos (resolution : Option String) : Except String String :=
  let r0 := match resolution with
    | none => "1080x1920"
    | some r => if r = "" then "1080x1920" else r
  let r1 :=
    if r0 = "1080p" then "1920x1080"
    else if r0 = "720p" then "1280x720"
    else r0
  match splitOnChar 'x' r1.data with
  | [w, _] =>
    if (pyParseInt? w).isSome then Except.ok r1 else Except.error resolutionError
  | _ => Except.error resolutionError

/-- Resolution handling of `generate-edit-from-single-video` (server.py
lines 879-888): identical to `normalizeResolutionVideos` except that no
`"1080p"`/`"720p"` preset substitution is performed. -/
def normalizeResolutionSingle (resolution : Option String) : Except String String :=
  let r0 := match resolution with
    | none => "1080x1920"
    | some r => if r = "" then "1080x1920" else r
  match splitOnChar 'x' r0.data with
  | [w, _] =>
    if (pyParseInt? w).isSome then Except.ok r0 else Except.error resolutionError
  | _ => Except.error resolutionError

/-- A raw cut as received in the `edit` argument: `video_id` is optional
at this stage (the single-video handler never reads it). -/
structure RawCut where
  video_id : Option String
  video_start_time : String
  video_end_time : String
deriving DecidableEq

/-- One entry of a normalized cut's `audio_levels` list.  The source
stores the level as the JSON string `"0.5"`. -/
structure AudioLevel where
  audio_level : String
  start_time : String
  end_time : String
deriving DecidableEq

/-- A normalized cut as placed in `video_series_sequential`. -/
structure NormalizedCut where
  video_id : String
  video_start_time : String
  video_end_time : String
  type : String
  audio_levels : List AudioLevel
deriving DecidableEq

/-- One element of the `updated_edit` list comprehension of
`generate-edit-from-single-video` (server.py lines 890-906): the
tool-level `video_id` is attached unconditionally, `type` is
`"videofile"`, and a single audio-level entry at `"0.5"` spans the cut's
own start/end timecodes. -/
def normalizeCutSingle (video_id : String) (cut : RawCut) : NormalizedCut :=
  { video_id := video_id
    video_start_time := cut.video_start_time
    video_end_time := cut.video_end_time
    type := "videofile"
    audio_levels := [{ audio_level := "0.5"
                       start_time := cut.video_start_time
                       end_time := cut.video_end_time }] }

/-- The whole `updated_edit` list of `generate-edit-from-single-video`. -/
def updatedEditSingle (video_id : String) (edit : List RawCut) : List NormalizedCut :=
  edit.map (normalizeCutSingle video_id)

/-- A project of the external catalog. -/
structure Project where
  id : String
  name : String
  description : String
deriving DecidableEq

/-- The project get-or-create of both edit handlers (server.py lines
795-803 and 922-929): `vj.projects.get(project)` is attempted and any
failure falls through to `vj.projects.create(name=project,
description="Claude generated project")`.  The catalog is abstracted as
a `lookup` function (`none` models the raised lookup error) and a pure
`create` function; the third component records the argument pairs of the
creation calls performed, so "no creation call" is `[]`. -/
def resolveProject (lookup : String → Option Project)
    (create : String → String → Project) (identifier : String) :
    Project × Bool × List (String × String) :=
  match lookup identifier with
  | some proj => (proj, false, [])
  | none =>
    (create identifier "Claude generated project", true,
      [(identifier, "Claude generated project")])


/-- A catalog video as returned by `vj.video_files.get`: the attributes
`create_otio_timeline` reads.  `download_url := none` models a missing
URL; `fps := none` an unset frame rate. -/
structure VideoFile where
  id : String
  name : String
  download_url : Option String
  fps : Option ℚ
deriving DecidableEq

/-- `otio.opentime.RationalTime`: a frame count at a frame rate. -/
structure RationalTime where
  value : Int
  rate : ℚ
deriving DecidableEq

/-- `otio.opentime.TimeRange(start_time, duration)`. -/
structure TimeRange where
  start_time : RationalTime
  duration : RationalTime
deriving DecidableEq

/-- An OTIO clip as built by `create_otio_timeline`: name, external media
reference path, and source range. -/
structure Clip where
  name : String
  target_url : String
  source_range : TimeRange
deriving DecidableEq

/-- The fields of the edit document that `create_otio_timeline` reads:
`edit_spec["name"]` and `edit_spec["video_series_sequential"]`, of which
only `video_id`, `video_start_time` and `video_end_time` are consumed. -/
structure EditSpec where
  name : String
  video_series_sequential : List NormalizedCut
deriving DecidableEq

/-- The assembled OTIO timeline: one track carrying the clips in append
order. -/
structure Timeline where
  track_name : String
  clips : List Clip
deriving DecidableEq

/-- Python truthiness test `if not video.download_url` on an optional
string attribute: `None` and the empty string are falsy. -/
def pyFalsy : Option String → Bool
  | none => true
  | some s => s = ""

/-- `fps = video.fps if video.fps else 24.0` (generate_opentimeline.py
line 60): `None` and `0.0` are falsy and fall back to 24. -/
def effFps : Option ℚ → ℚ
  | none => 24
  | some f => if f = 0 then 24 else f

/-- `create_rational_time` (generate_opentimeline.py lines 36-39). -/
def create_rational_time (timecode : String) (fps : ℚ) :
    Except String RationalTime :=
  (timecode_to_frames timecode fps).map (fun frames => ⟨frames, fps⟩)

/-- The body of the cut loop of `create_otio_timeline`
(generate_opentimeline.py lines 51-72) for one cut: resolve the video,
skip (`ok none`) when its download URL is falsy, otherwise convert both
timecodes at the video's effective fps and build the clip whose source
range is `TimeRange(start_time, end_time - start_time)` — the duration
is the unchecked frame difference.  The download's destination path
`download_dir/<video.name>.mp4` is the clip's media reference. -/
def materializeCut (catalog : String → VideoFile) (edit_name : String)
    (download_dir : String) (cut : NormalizedCut) :
    Except String (Option Clip) :=
  let video := catalog cut.video_id
  let local_file := download_dir ++ "/" ++ video.name ++ ".mp4"
  if pyFalsy video.download_url then Except.ok none
  else do
    let fps := effFps video.fps
    let start_time ← create_rational_time cut.video_start_time fps
    let end_time ← create_rational_time cut.video_end_time fps
    Except.ok (some
      { name := "clip_" ++ edit_name
        target_url := local_file
        source_range :=
          ⟨start_time, ⟨end_time.value - start_time.value, fps⟩⟩ })

/-- The cut loop of `create_otio_timeline`: clips of surviving cuts are
appended to the single track in input order; a conversion error aborts
the whole run. -/
def buildTrack (catalog : String → VideoFile) (edit_name : String)
    (download_dir : String) : List NormalizedCut → Except String (List Clip)
  | [] => Except.ok []
  | cut :: rest => do
    let clip? ← materializeCut catalog edit_name download_dir cut
    let tail ← buildTrack catalog edit_name download_dir rest
    Except.ok
      (match clip? with
       | some clip => clip :: tail
       | none => tail)

/-- `create_otio_timeline(edit_spec, ...)` (generate_opentimeline.py
lines 42-76), with filesystem and download side effects abstracted away:
the single track named after the edit receives one clip per non-skipped
cut, in input order. -/
def create_otio_timeline (catalog : String → VideoFile)
    (edit_spec : EditSpec) (download_dir : String) :
    Except String Timeline :=
  (buildTrack catalog edit_spec.name download_dir
      edit_spec.video_series_sequential).map
    (fun clips => { track_name := edit_spec.name, clips := clips })

/-- Whether the cut loop keeps a cut: its video's download URL is not
falsy. -/
def keepCut (catalog : String → VideoFile) (cut : NormalizedCut) : Bool :=
  !(pyFalsy (catalog cut.video_id).download_url)

/-- Frame count of a timecode, defaulting to 0 on a conversion error;
used only to state the shape of successful runs, where the default is
never taken. -/
def framesOrZero (timecode : String) (fps : ℚ) : Int :=
  match timecode_to_frames timecode fps with
  | Except.ok n => n
  | Except.error _ => 0

/-- The clip a kept cut becomes on a successful run. -/
def clipOf (catalog : String → VideoFile) (edit_name : String)
    (download_dir : String) (cut : NormalizedCut) : Clip :=
  let video := catalog cut.video_id
  let fps := effFps video.fps
  let s := framesOrZero cut.video_start_time fps
  let e := framesOrZero cut.video_end_time fps
  { name := "clip_" ++ edit_name
    target_url := download_dir ++ "/" ++ video.name ++ ".mp4"
    source_range := ⟨⟨s, fps⟩, ⟨e - s, fps⟩⟩ }

/-- Whether an `Except` value is a success. -/
def exceptOk {ε α : Type} : Except ε α → Bool
  | Except.ok _ => true
  | Except.error _ => false

/-- Both timecodes of a cut convert without error at the effective frame
rate of the cut's video. -/
def cutParses (catalog : String → VideoFile) (cut : NormalizedCut) : Bool :=
  exceptOk (timecode_to_frames cut.video_start_time
      (effFps (catalog cut.video_id).fps)) &&
  exceptOk (timecode_to_frames cut.video_end_time
      (effFps (catalog cut.video_id).fps))

/-- A three-video catalog fixture: `b` has no download URL and `c` has
no stored frame rate. -/
def sampleCatalog : String → VideoFile := fun id =>
  if id = "a" then
    { id := "a", name := "va", download_url := some "urlA", fps := some 24 }
  else if id = "b" then
    { id := "b", name := "vb", download_url := none, fps := some 24 }
  else
    { id := "c", name := "vc", download_url := some "urlC", fps := none }

/-- A normalized cut fixture with the fixed audio-level entry. -/
def sampleCut (vid start stop : String) : NormalizedCut :=
  { video_id := vid
    video_start_time := start
    video_end_time := stop
    type := "videofile"
    audio_levels := [{ audio_level := "0.5", start_time := start, end_time := stop }] }

/-!  Supporting lemmas. -/

theorem except_ok_bind {e a b : Type} (x : a) (f : a → Except e b) :
    (Except.ok x : Except e a) >>= f = f x := rfl

theorem except_map_ok {e a b : Type} (f : a → b) (x : a) :
    Except.map f (Except.ok x : Except e a) = Except.ok (f x) := rfl

theorem pyInt_eq_floor (q : ℚ) (hq : 0 ≤ q) : pyInt q = ⌊q⌋ := by
  have hnum : 0 ≤ q.num := Rat.num_nonneg.mpr hq
  rw [pyInt, Rat.floor_def]
  exact Int.tdiv_eq_ediv hnum (Int.natCast_nonneg _)

theorem pyInt_eq_ceil (q : ℚ) (hq : q ≤ 0) : pyInt q = ⌈q⌉ := by
  have h1 : pyInt q = -(pyInt (-q)) := by
    rw [pyInt, pyInt, Rat.neg_num, Rat.neg_den, Int.neg_tdiv, Int.neg_neg]
  rw [h1, pyInt_eq_floor (-q) (by linarith), Int.floor_neg]
  exact neg_neg _

theorem pyInt_mono {q r : ℚ} (h : q ≤ r) : pyInt q ≤ pyInt r := by
  rcases le_or_lt 0 q with hq | hq
  · rw [pyInt_eq_floor q hq, pyInt_eq_floor r (le_trans hq h)]
    exact Int.floor_mono h
  · rcases le_or_lt 0 r with hr | hr
    · calc pyInt q = ⌈q⌉ := pyInt_eq_ceil q hq.le
        _ ≤ 0 := Int.ceil_le.mpr (by exact_mod_cast hq.le)
        _ ≤ ⌊r⌋ := Int.floor_nonneg.mpr hr
        _ = pyInt r := (pyInt_eq_floor r hr).symm
    · rw [pyInt_eq_ceil q hq.le, pyInt_eq_ceil r hr.le]
      exact Int.ceil_mono h

theorem timecode_to_frames_ok_of_parts {tc : String} {hq mq sq : ℚ}
    (hp : timecodeParts? tc = some (hq, mq, sq)) (fps : ℚ) :
    timecode_to_frames tc fps =
      Except.ok (pyInt ((hq * 3600 + mq * 60 + sq) * fps)) := by
  unfold timecode_to_frames
  rw [hp]

theorem materializeCut_skip {catalog : String → VideoFile}
    {edit_name download_dir : String} {cut : NormalizedCut}
    (hk : keepCut catalog cut = false) :
    materializeCut catalog edit_name download_dir cut = Except.ok none := by
  have : pyFalsy (catalog cut.video_id).download_url = true := by
    simpa [keepCut] using hk
  simp [materializeCut, this]

theorem materializeCut_keep {catalog : String → VideoFile}
    {edit_name download_dir : String} {cut : NormalizedCut} {s e : Int}
    (hk : keepCut catalog cut = true)
    (hs : timecode_to_frames cut.video_start_time
        (effFps (catalog cut.video_id).fps) = Except.ok s)
    (he : timecode_to_frames cut.video_end_time
        (effFps (catalog cut.video_id).fps) = Except.ok e) :
    materializeCut catalog edit_name download_dir cut =
      Except.ok (some (clipOf catalog edit_name download_dir cut)) := by
  have hks : pyFalsy (catalog cut.video_id).download_url = false := by
    simpa [keepCut] using hk
  simp only [materializeCut, create_rational_time, hks, hs, he, clipOf,
    framesOrZero, except_map_ok, except_ok_bind, Bool.false_eq_true, if_false]

theorem buildTrack_eq_filter_map (catalog : String → VideoFile)
    (edit_name download_dir : String) (cuts : List NormalizedCut)
    (h : ∀ cut ∈ cuts, keepCut catalog cut = true → cutParses catalog cut = true) :
    buildTrack catalog edit_name download_dir cuts =
      Except.ok ((cuts.filter (keepCut catalog)).map
        (clipOf catalog edit_name download_dir)) := by
  induction cuts with
  | nil => rfl
  | cons cut rest ih =>
    have hrest : ∀ c ∈ rest, keepCut catalog c = true → cutParses catalog c = true :=
      fun c hc => h c (List.mem_cons_of_mem _ hc)
    have ihr := ih hrest
    by_cases hk : keepCut catalog cut = true
    · have hcp := h cut (List.mem_cons_self _ _) hk
      cases hs : timecode_to_frames cut.video_start_time
          (effFps (catalog cut.video_id).fps) with
      | error es => simp [cutParses, exceptOk, hs] at hcp
      | ok s =>
        cases he : timecode_to_frames cut.video_end_time
            (effFps (catalog cut.video_id).fps) with
        | error ee => simp [cutParses, exceptOk, hs, he] at hcp
        | ok e =>
          rw [buildTrack]
          rw [materializeCut_keep hk hs he]
          simp only [except_ok_bind, ihr, List.filter_cons, hk, if_pos,
            List.map_cons]
    · rw [buildTrack]
      rw [materializeCut_skip (Bool.not_eq_true _ ▸ hk)]
      simp only [except_ok_bind, ihr, List.filter_cons]
      rw [if_neg (by simpa using hk)]


/-!  Claim theorems. -/

unseal Rat.mul Rat.add Rat.sub Rat.inv in
/-- C2, counterexample: `timecode_to_frames` does not raise on every
string that fails to split into exactly three non-negative numeric
components.  A four-component string is accepted with the fourth
component silently ignored, and a negative hours component is accepted
and produces a negative frame count. -/
theorem timecode_lenient_counterexample :
    timecode_to_frames "00:00:01:99" 24 = Except.ok 24 ∧
    timecode_to_frames "-1:0:0" 24 = Except.ok (-86400) := by decide

/-- C2, amended: `timecode_to_frames` raises `MalformedTimecode` exactly
when one of the *first three* colon-separated components is missing or
not float-parseable.  Components beyond the third are ignored, and a
component with a leading sign is numeric, so negative timecodes are
accepted rather than rejected. -/
theorem timecode_to_frames_error_iff (tc : String) (fps : ℚ) :
    (∃ err, timecode_to_frames tc fps = Except.error err) ↔
      (∃ i < 3, ((splitOnChar ':' tc.data).get? i).bind pyFloat? = none) := by
  cases h0 : ((splitOnChar ':' tc.data).get? 0).bind pyFloat? with
  | none =>
    simp only [timecode_to_frames, timecodeParts?, h0]
    exact ⟨fun _ => ⟨0, by omega, h0⟩, fun _ => ⟨_, rfl⟩⟩
  | some q0 =>
    cases h1 : ((splitOnChar ':' tc.data).get? 1).bind pyFloat? with
    | none =>
      simp only [timecode_to_frames, timecodeParts?, h0, h1]
      exact ⟨fun _ => ⟨1, by omega, h1⟩, fun _ => ⟨_, rfl⟩⟩
    | some q1 =>
      cases h2 : ((splitOnChar ':' tc.data).get? 2).bind pyFloat? with
      | none =>
        simp only [timecode_to_frames, timecodeParts?, h0, h1, h2]
        exact ⟨fun _ => ⟨2, by omega, h2⟩, fun _ => ⟨_, rfl⟩⟩
      | some q2 =>
        simp only [timecode_to_frames, timecodeParts?, h0, h1, h2]
        constructor
        · rintro ⟨err, herr⟩
          exact absurd herr (by simp)
        · rintro ⟨i, hi, hnone⟩
          interval_cases i <;> simp_all

unseal Rat.mul Rat.add Rat.sub Rat.inv in
/-- C4: `timecode_to_frames` computes the truncation toward zero of
`(hours*3600 + minutes*60 + seconds) * fps` (`pyInt` is the floor for
non-negative arguments and the ceiling for non-positive ones), and in
particular maps `"00:00:01.000"` at 24 fps to 24, `"00:01:00.000"` at
30 fps to 1800, `"01:00:00.000"` at 24 fps to 86400, with no upper
bound on the hours component (a 100-hour timecode converts). -/
theorem timecode_frames_truncation :
    (∀ (tc : String) (fps hq mq sq : ℚ), timecodeParts? tc = some (hq, mq, sq) →
        timecode_to_frames tc fps =
          Except.ok (pyInt ((hq * 3600 + mq * 60 + sq) * fps)))
    ∧ (∀ q : ℚ, 0 ≤ q → pyInt q = ⌊q⌋)
    ∧ (∀ q : ℚ, q ≤ 0 → pyInt q = ⌈q⌉)
    ∧ timecode_to_frames "00:00:01.000" 24 = Except.ok 24
    ∧ timecode_to_frames "00:01:00.000" 30 = Except.ok 1800
    ∧ timecode_to_frames "01:00:00.000" 24 = Except.ok 86400
    ∧ timecode_to_frames "100:00:00.000" 24 = Except.ok 8640000 :=
  ⟨fun _ fps _ _ _ hp => timecode_to_frames_ok_of_parts hp fps,
   pyInt_eq_floor, pyInt_eq_ceil, by decide, by decide, by decide, by decide⟩

unseal Rat.mul Rat.add Rat.sub Rat.inv in
/-- C4, witness: the truncation formula applied at `"00:00:02.5"` and
10 fps. -/
theorem timecode_frames_truncation_witness :
    timecode_to_frames "00:00:02.5" 10 =
      Except.ok (pyInt ((0 * 3600 + 0 * 60 + Rat.divInt 5 2) * 10)) :=
  timecode_frames_truncation.1 "00:00:02.5" 10 0 0 (Rat.divInt 5 2) (by decide)

/-- C9: `timecode_to_frames` is monotone in wall-clock time: for any two
timecodes whose components parse and whose denoted second counts are
strictly ordered, and any positive fps, both convert successfully and
the first frame count is at most the second. -/
theorem timecode_to_frames_monotone (t1 t2 : String) (fps : ℚ) (hfps : 0 < fps)
    (h1 m1 s1 h2 m2 s2 : ℚ)
    (hp1 : timecodeParts? t1 = some (h1, m1, s1))
    (hp2 : timecodeParts? t2 = some (h2, m2, s2))
    (hlt : h1 * 3600 + m1 * 60 + s1 < h2 * 3600 + m2 * 60 + s2) :
    ∃ n1 n2, timecode_to_frames t1 fps = Except.ok n1 ∧
      timecode_to_frames t2 fps = Except.ok n2 ∧ n1 ≤ n2 :=
  ⟨_, _, timecode_to_frames_ok_of_parts hp1 fps,
    timecode_to_frames_ok_of_parts hp2 fps,
    pyInt_mono (mul_le_mul_of_nonneg_right hlt.le hfps.le)⟩

unseal Rat.mul Rat.add Rat.sub Rat.inv in
/-- C9, witness: monotonicity applied at `"00:00:01.000" < "00:00:01.500"`
and 24 fps. -/
theorem timecode_to_frames_monotone_witness :
    ∃ n1 n2, timecode_to_frames "00:00:01.000" 24 = Except.ok n1 ∧
      timecode_to_frames "00:00:01.500" 24 = Except.ok n2 ∧ n1 ≤ n2 :=
  timecode_to_frames_monotone "00:00:01.000" "00:00:01.500" 24 (by decide)
    0 0 1 0 0 (Rat.divInt 3 2) (by decide) (by decide) (by decide)

/-- C5: `create_otio_timeline` skips every cut whose resolved video has
a falsy download URL and emits, without error, exactly the clips of the
kept cuts in the original input order (the track is the order-preserving
filter-then-map of the cut list). -/
theorem create_otio_timeline_skips_and_orders
    (catalog : String → VideoFile) (spec : EditSpec) (dir : String)
    (h : ∀ cut ∈ spec.video_series_sequential,
        keepCut catalog cut = true → cutParses catalog cut = true) :
    create_otio_timeline catalog spec dir =
      Except.ok
        { track_name := spec.name
          clips := (spec.video_series_sequential.filter (keepCut catalog)).map
            (clipOf catalog spec.name dir) } := by
  unfold create_otio_timeline
  rw [buildTrack_eq_filter_map catalog spec.name dir _ h]
  rfl

unseal Rat.mul Rat.add Rat.sub Rat.inv in
/-- C5, witness: a three-cut edit whose middle cut references the
URL-less video `b` materializes to the clips of `a` and `c`, in order;
`c` falls back to the default 24 fps. -/
theorem create_otio_timeline_skips_and_orders_witness :
    create_otio_timeline sampleCatalog
      { name := "demo"
        video_series_sequential :=
          [sampleCut "a" "00:00:00.000" "00:00:01.000",
           sampleCut "b" "00:00:00.000" "00:00:02.000",
           sampleCut "c" "00:00:01.000" "00:00:03.000"] } "downloads" =
      Except.ok
        { track_name := "demo"
          clips :=
            [{ name := "clip_demo", target_url := "downloads/va.mp4"
               source_range := ⟨⟨0, 24⟩, ⟨24, 24⟩⟩ },
             { name := "clip_demo", target_url := "downloads/vc.mp4"
               source_range := ⟨⟨24, 24⟩, ⟨48, 24⟩⟩ }] } :=
  (create_otio_timeline_skips_and_orders sampleCatalog _ "downloads"
    (by decide)).trans (by decide)

unseal Rat.mul Rat.add Rat.sub Rat.inv in
/-- C1, counterexample: a cut with `video_start_time == video_end_time`
does not raise; `create_otio_timeline` succeeds and emits a clip whose
source-range duration is zero frames. -/
theorem create_otio_timeline_zero_duration_accepted :
    create_otio_timeline sampleCatalog
      { name := "zero"
        video_series_sequential := [sampleCut "a" "00:00:01.000" "00:00:01.000"] }
      "downloads" =
      Except.ok
        { track_name := "zero"
          clips := [{ name := "clip_zero", target_url := "downloads/va.mp4"
                      source_range := ⟨⟨24, 24⟩, ⟨0, 24⟩⟩ }] } := by decide

/-- C1, amended: `create_otio_timeline` performs no duration check at
all: for a cut whose video has a download URL and whose timecodes
convert to frames `s` and `e` with `e ≤ s`, materialization succeeds
and the emitted clip's source-range duration is the non-positive frame
difference `e - s`, rather than any `NegativeDuration` error. -/
theorem create_otio_timeline_no_duration_check
    (catalog : String → VideoFile) (edit_name dir : String)
    (cut : NormalizedCut) (s e : Int)
    (hk : keepCut catalog cut = true)
    (hs : timecode_to_frames cut.video_start_time
        (effFps (catalog cut.video_id).fps) = Except.ok s)
    (he : timecode_to_frames cut.video_end_time
        (effFps (catalog cut.video_id).fps) = Except.ok e)
    (hle : e ≤ s) :
    create_otio_timeline catalog
        { name := edit_name, video_series_sequential := [cut] } dir =
      Except.ok
        { track_name := edit_name
          clips := [{ name := "clip_" ++ edit_name
                      target_url := dir ++ "/" ++ (catalog cut.video_id).name ++ ".mp4"
                      source_range :=
                        ⟨⟨s, effFps (catalog cut.video_id).fps⟩,
                         ⟨e - s, effFps (catalog cut.video_id).fps⟩⟩ }] }
      ∧ e - s ≤ 0 := by
  constructor
  · unfold create_otio_timeline
    rw [buildTrack, materializeCut_keep hk hs he, except_ok_bind, buildTrack]
    simp only [clipOf, framesOrZero, hs, he]
    rfl
  · omega

unseal Rat.mul Rat.add Rat.sub Rat.inv in
/-- C1, witness: a cut running from `"00:00:02.000"` back to
`"00:00:01.000"` at 24 fps materializes into a clip of duration
`-24` frames with no error raised. -/
theorem create_otio_timeline_no_duration_check_witness :
    create_otio_timeline sampleCatalog
        { name := "neg"
          video_series_sequential := [sampleCut "a" "00:00:02.000" "00:00:01.000"] }
        "downloads" =
      Except.ok
        { track_name := "neg"
          clips := [{ name := "clip_neg", target_url := "downloads/va.mp4"
                      source_range := ⟨⟨48, 24⟩, ⟨-24, 24⟩⟩ }] }
      ∧ (24 : Int) - 48 ≤ 0 :=
  create_otio_timeline_no_duration_check sampleCatalog "neg" "downloads"
    (sampleCut "a" "00:00:02.000" "00:00:01.000") 48 24
    (by decide) (by decide) (by decide) (by decide)

/-- C3, counterexample: the resolution check does not reject every
string whose two `x`-separated parts are not both positive integers: a
non-numeric height (`"640xfoo"`), zero dimensions (`"0x0"`) and a
negative width (`"-640x480"`) are all accepted unchanged. -/
theorem resolution_invalid_inputs_accepted :
    normalizeResolutionVideos (some "640xfoo") = Except.ok "640xfoo" ∧
    normalizeResolutionVideos (some "0x0") = Except.ok "0x0" ∧
    normalizeResolutionVideos (some "-640x480") = Except.ok "-640x480" := by
  decide

/-- C3, amended: after default substitution and preset mapping, the
check accepts exactly the strings that split on `x` into exactly two
parts whose *first* part parses as a (possibly non-positive) integer —
the height part and positivity are never validated — and an accepted
resolution string is passed through unchanged. -/
theorem normalizeResolutionVideos_accept_iff (r : String)
    (hr1 : r ≠ "") (hr2 : r ≠ "1080p") (hr3 : r ≠ "720p") :
    ((∃ v, normalizeResolutionVideos (some r) = Except.ok v) ↔
      (∃ w h, splitOnChar 'x' r.data = [w, h] ∧ (pyParseInt? w).isSome = true))
    ∧ (∀ v, normalizeResolutionVideos (some r) = Except.ok v → v = r) := by
  have hdef : normalizeResolutionVideos (some r) =
      (match splitOnChar 'x' r.data with
       | [w, _] =>
         if (pyParseInt? w).isSome then Except.ok r
         else Except.error resolutionError
       | _ => Except.error resolutionError) := by
    simp only [normalizeResolutionVideos, if_neg hr1, if_neg hr2, if_neg hr3]
  rw [hdef]
  cases hsp : splitOnChar 'x' r.data with
  | nil => simp
  | cons w t =>
    cases t with
    | nil => simp
    | cons h t2 =>
      cases t2 with
      | nil =>
        by_cases hp : (pyParseInt? w).isSome = true
        · refine ⟨⟨fun _ => ⟨w, h, rfl, hp⟩, fun _ => ⟨r, by simp [hp]⟩⟩, ?_⟩
          intro v hv
          simp [hp] at hv
          exact hv.symm
        · constructor
          · constructor
            · rintro ⟨v, hv⟩
              simp [hp] at hv
            · rintro ⟨w2, h2, hwh, hp2⟩
              obtain ⟨rfl, rfl, -⟩ : w = w2 ∧ h = h2 ∧ True := by
                simpa using hwh
              exact absurd hp2 hp
          · intro v hv
            simp [hp] at hv
      | cons h2 t3 => simp

/-- C3, witness: `"640x480"` is accepted, via the amended
characterization. -/
theorem normalizeResolutionVideos_accept_iff_witness :
    ∃ v, normalizeResolutionVideos (some "640x480") = Except.ok v :=
  (normalizeResolutionVideos_accept_iff "640x480" (by decide) (by decide)
    (by decide)).1.mpr ⟨['6', '4', '0'], ['4', '8', '0'], by decide, by decide⟩

/-- C7, counterexample: the `"1080p"` preset is not honoured by every
edit-generation operation: `generate-edit-from-single-video` rejects it
as a malformed resolution instead of mapping it to `1920x1080`. -/
theorem presets_rejected_in_single_video :
    normalizeResolutionSingle (some "1080p") = Except.error resolutionError := by
  decide

/-- C7, amended: an absent or empty resolution defaults to
`"1080x1920"` in both edit-generation operations, but the
`"1080p"`/`"720p"` landscape presets are mapped (before generic `WxH`
parsing) only by `generate-edit-from-videos`;
`generate-edit-from-single-video` rejects both presets as malformed. -/
theorem resolution_defaults_and_presets :
    normalizeResolutionVideos none = Except.ok "1080x1920" ∧
    normalizeResolutionVideos (some "") = Except.ok "1080x1920" ∧
    normalizeResolutionVideos (some "1080p") = Except.ok "1920x1080" ∧
    normalizeResolutionVideos (some "720p") = Except.ok "1280x720" ∧
    normalizeResolutionSingle none = Except.ok "1080x1920" ∧
    normalizeResolutionSingle (some "") = Except.ok "1080x1920" ∧
    normalizeResolutionSingle (some "1080p") = Except.error resolutionError ∧
    normalizeResolutionSingle (some "720p") = Except.error resolutionError := by
  decide

/-- C6: project resolution is a get-or-create: a successful lookup
returns the existing project with `created = false` and performs no
creation call, while a failed lookup creates and returns a project named
by the identifier with the fixed description `"Claude generated
project"` and `created = true`. -/
theorem resolveProject_get_or_create (lookup : String → Option Project)
    (create : String → String → Project) (identifier : String) :
    (∀ p, lookup identifier = some p →
        resolveProject lookup create identifier = (p, false, [])) ∧
    (lookup identifier = none →
        resolveProject lookup create identifier =
          (create identifier "Claude generated project", true,
            [(identifier, "Claude generated project")])) := by
  constructor
  · intro p hp
    simp [resolveProject, hp]
  · intro hn
    simp [resolveProject, hn]

/-- C6, witness: both branches at concrete catalogs — a hit returns the
stored project without creating, a miss creates `("X", "Claude generated
project")`. -/
theorem resolveProject_get_or_create_witness :
    resolveProject (fun _ => some ⟨"1", "X", "d"⟩) (fun n d => ⟨"9", n, d⟩) "X" =
      (⟨"1", "X", "d"⟩, false, []) ∧
    resolveProject (fun _ => none) (fun n d => ⟨"9", n, d⟩) "X" =
      (⟨"9", "X", "Claude generated project"⟩, true,
        [("X", "Claude generated project")]) :=
  ⟨(resolveProject_get_or_create (fun _ => some ⟨"1", "X", "d"⟩)
      (fun n d => ⟨"9", n, d⟩) "X").1 _ rfl,
   (resolveProject_get_or_create (fun _ => none)
      (fun n d => ⟨"9", n, d⟩) "X").2 rfl⟩

/-- C8: normalization of a raw cut list in single-video mode yields one
normalized cut per raw cut, tagged `type = "videofile"`, carrying the
tool-level video id, with exactly one audio-levels entry at `"0.5"`
whose start and end equal the cut's own timecodes. -/
theorem updatedEditSingle_shape (video_id : String) (edit : List RawCut) :
    (updatedEditSingle video_id edit).length = edit.length ∧
    ∀ i cut, edit.get? i = some cut →
      (updatedEditSingle video_id edit).get? i = some
        { video_id := video_id
          video_start_time := cut.video_start_time
          video_end_time := cut.video_end_time
          type := "videofile"
          audio_levels := [{ audio_level := "0.5"
                             start_time := cut.video_start_time
                             end_time := cut.video_end_time }] } := by
  constructor
  · simp [updatedEditSingle]
  · intro i cut hc
    have hmap : (updatedEditSingle video_id edit).get? i =
        (edit.get? i).map (normalizeCutSingle video_id) := by
      simp [updatedEditSingle]
    rw [hmap, hc]
    rfl

/-- C8, witness: the specification's own example — one cut from
`"00:00:00.000"` to `"00:00:05.000"` with default video id `"v1"`. -/
theorem updatedEditSingle_shape_witness :
    (updatedEditSingle "v1"
        [{ video_id := none
           video_start_time := "00:00:00.000"
           video_end_time := "00:00:05.000" }]).get? 0 = some
      { video_id := "v1"
        video_start_time := "00:00:00.000"
        video_end_time := "00:00:05.000"
        type := "videofile"
        audio_levels := [{ audio_level := "0.5"
                           start_time := "00:00:00.000"
                           end_time := "00:00:05.000" }] } :=
  (updatedEditSingle_shape "v1"
    [{ video_id := none
       video_start_time := "00:00:00.000"
       video_end_time := "00:00:05.000" }]).2 0
    { video_id := none
      video_start_time := "00:00:00.000"
      video_end_time := "00:00:05.000" } rfl

/-- C10: in `generate-edit-from-single-video` every normalized cut
carries the tool-level `video_id`; a per-cut `video_id` in the raw input
has no influence on the result (it is silently overridden). -/
theorem updatedEditSingle_overrides_video_id (vid : String) (edit : List RawCut) :
    (∀ nc ∈ updatedEditSingle vid edit, nc.video_id = vid) ∧
    (∀ cut : RawCut,
      normalizeCutSingle vid cut = normalizeCutSingle vid { cut with video_id := none }) := by
  constructor
  · intro nc hnc
    rcases List.mem_map.mp hnc with ⟨c, -, rfl⟩
    rfl
  · intro cut
    rfl

/-- C10, witness: a raw cut carrying its own `video_id = "v9"` still
normalizes to video id `"v1"`. -/
theorem updatedEditSingle_overrides_video_id_witness :
    (normalizeCutSingle "v1"
      { video_id := some "v9", video_start_time := "s", video_end_time := "e" }).video_id
      = "v1" :=
  (updatedEditSingle_overrides_video_id "v1"
    [{ video_id := some "v9", video_start_time := "s", video_end_time := "e" }]).1
    _ (List.mem_singleton.mpr rfl)
